import Mathlib

/-!
Shallow embedding of the Seattle Tip 312 prescriptive deck code engine
(`src/domain/code_engine.py` and `src/domain/models.py`).

Numeric conventions: Python floats are modelled as exact rationals (ℚ) for
all table values and geometry; the single square-root/π computation in
`_calculate_footing_diameter` is modelled over the reals (ℝ) with `Real.sqrt`
and `Real.pi`.  Python `int` is modelled as ℤ.  Human-readable note/error
strings produced with f-string number formatting are modelled as structured
values (`EngineError`, `Note`) carrying the same data the Python code
interpolates into the strings.
-/

namespace Kolmo

/-- `models.LedgerAttachment` enum. -/
inductive LedgerAttachment where
  | direct
  | standoff
  | freestanding
deriving DecidableEq

/-- The `.value` of each `LedgerAttachment` enum member. -/
def LedgerAttachment.value : LedgerAttachment → String
  | .direct => "direct"
  | .standoff => "standoff"
  | .freestanding => "freestanding"

/-- `models.DeckingType` enum (passed through, never read by the engine). -/
inductive DeckingType where
  | composite_trex
  | composite_timbertech
  | cedar
  | pressure_treated
deriving DecidableEq

/-- `models.RailingType` enum (passed through, never read by the engine). -/
inductive RailingType where
  | none
  | wood
  | cable
  | glass
  | aluminum
deriving DecidableEq

/-- `models.LumberSpec`: nominal designation with actual cross-section inches. -/
structure LumberSpec where
  nominal : String
  width_in : ℚ
  height_in : ℚ
deriving DecidableEq

/-- `LumberSpec.width_ft` property. -/
def LumberSpec.width_ft (l : LumberSpec) : ℚ := l.width_in / 12

/-- `LumberSpec.height_ft` property. -/
def LumberSpec.height_ft (l : LumberSpec) : ℚ := l.height_in / 12

/-- `models.LUMBER_SPECS` dict.  The Python dict raises `KeyError` on any
other key; the engine only ever indexes it with the ten keys below, so the
catch-all default (a zero-dimension spec) is never reached from
`generate_structure`. -/
def LUMBER_SPECS : String → LumberSpec
  | "2x6" => ⟨"2x6", 3/2, 11/2⟩
  | "2x8" => ⟨"2x8", 3/2, 29/4⟩
  | "2x10" => ⟨"2x10", 3/2, 37/4⟩
  | "2x12" => ⟨"2x12", 3/2, 45/4⟩
  | "4x4" => ⟨"4x4", 7/2, 7/2⟩
  | "4x6" => ⟨"4x6", 7/2, 11/2⟩
  | "4x8" => ⟨"4x8", 7/2, 29/4⟩
  | "4x10" => ⟨"4x10", 7/2, 37/4⟩
  | "4x12" => ⟨"4x12", 7/2, 45/4⟩
  | "6x6" => ⟨"6x6", 11/2, 11/2⟩
  | n => ⟨n, 0, 0⟩

/-- `models.SiteInput` dataclass. -/
structure SiteInput where
  width_ft : ℚ
  depth_ft : ℚ
  height_ft : ℚ
  ledger_attachment : LedgerAttachment := .direct
  soil_bearing_psf : ℤ := 1500
  frost_depth_in : ℤ := 18
  slope_percent : ℚ := 0
  decking_type : DeckingType := .composite_trex
  railing_type : RailingType := .none
  railing_lf : ℚ := 0
  stair_count : ℤ := 0
  customer_name : String := ""
  site_address : String := ""
deriving DecidableEq

/-- `models.Footing` dataclass. -/
structure Footing where
  x_ft : ℚ
  y_ft : ℚ
  diameter_in : ℤ
  depth_in : ℤ
deriving DecidableEq

/-- `models.Post` dataclass. -/
structure Post where
  x_ft : ℚ
  y_ft : ℚ
  height_ft : ℚ
  lumber : LumberSpec
deriving DecidableEq

/-- `models.Beam` dataclass (`z_ft` is the bottom-of-beam elevation). -/
structure Beam where
  x_start_ft : ℚ
  x_end_ft : ℚ
  y_ft : ℚ
  z_ft : ℚ
  lumber : LumberSpec
  ply : ℤ := 2
deriving DecidableEq

/-- `models.Joist` dataclass (`z_ft` is the bottom-of-joist elevation). -/
structure Joist where
  x_ft : ℚ
  y_start_ft : ℚ
  y_end_ft : ℚ
  z_ft : ℚ
  lumber : LumberSpec
deriving DecidableEq

/-- The ledger dict built by `generate_structure` (its six fixed keys). -/
structure Ledger where
  x_start_ft : ℚ
  x_end_ft : ℚ
  y_ft : ℚ
  z_ft : ℚ
  lumber : LumberSpec
  attachment : String
deriving DecidableEq

/-- The rim-joist dicts built by `generate_structure`: the "left"/"right"
dicts carry `x_ft, y_start_ft, y_end_ft`, the "outer" dict carries
`x_start_ft, x_end_ft, y_ft`. -/
inductive RimJoist where
  | side (location : String) (x_ft y_start_ft y_end_ft : ℚ) (lumber : LumberSpec)
  | outer (x_start_ft x_end_ft y_ft : ℚ) (lumber : LumberSpec)
deriving DecidableEq

/-- The messages appended to `structure.errors`, modelled structurally: the
Python code renders each as an f-string from exactly the data carried here.
`joistSpanExceeded span maxSpan` is the `ValueError` of `_select_joist_size`;
`beamSpanExceeded span cat` that of `_select_beam_size`;
`cantileverExceeded cant maxCant depth` the inline cantilever message. -/
inductive EngineError where
  | joistSpanExceeded (span_ft : ℚ) (max_span_ft : ℚ)
  | beamSpanExceeded (span_ft : ℚ) (joist_cat : String)
  | cantileverExceeded (cantilever_ft : ℚ) (max_ft : ℚ) (depth_ft : ℚ)
deriving DecidableEq

/-- The messages appended to `structure.notes`, modelled structurally (same
data the f-strings interpolate).  `postsReview` is the "(verify with
engineer)" variant of the posts note. -/
inductive Note where
  | joists (size : String) (spacing_in : ℤ) (span_ft : ℚ)
  | beam (ply : ℤ) (size : String) (span_ft : ℚ) (num_posts : ℤ)
  | postsReview (size : String) (height_ft : ℚ)
  | postsOk (size : String) (height_ft : ℚ)
  | footings (diameter_in : ℤ) (depth_in : ℤ) (tributary_sqft : ℚ)
  | joistCount (n : ℤ)
deriving DecidableEq

/-- `models.DeckStructure` dataclass with its Python field defaults. -/
structure DeckStructure where
  input : SiteInput
  footings : List Footing := []
  posts : List Post := []
  beams : List Beam := []
  joists : List Joist := []
  ledger : Option Ledger := none
  rim_joists : List RimJoist := []
  joist_size : String := ""
  joist_spacing_in : ℤ := 16
  beam_size : String := ""
  beam_ply : ℤ := 2
  post_size : String := ""
  footing_diameter_in : ℤ := 12
  compliant : Bool := true
  notes : List Note := []
  errors : List EngineError := []

/-- `code_engine.JOIST_SPANS.get((size, spacing), 0)`: the joist span table
with the dict-`get` default of 0 used at both call sites. -/
def JOIST_SPANS_get (size : String) (spacing : ℤ) : ℚ :=
  match size, spacing with
  | "2x6", 12 => 21/2
  | "2x6", 16 => 19/2
  | "2x6", 24 => 8
  | "2x8", 12 => 1383/100
  | "2x8", 16 => 25/2
  | "2x8", 24 => 21/2
  | "2x10", 12 => 1767/100
  | "2x10", 16 => 16
  | "2x10", 24 => 27/2
  | "2x12", 12 => 43/2
  | "2x12", 16 => 39/2
  | "2x12", 24 => 33/2
  | _, _ => 0

/-- `code_engine.BEAM_SPANS.get((config, cat), 0)`: the beam span table with
the dict-`get` default of 0 used at its call site. -/
def BEAM_SPANS_get (config : String) (cat : String) : ℚ :=
  match config, cat with
  | "2-2x6", "6" => 11/2
  | "2-2x6", "8" => 9/2
  | "2-2x6", "10" => 4
  | "2-2x6", "12" => 7/2
  | "2-2x8", "6" => 7
  | "2-2x8", "8" => 6
  | "2-2x8", "10" => 11/2
  | "2-2x8", "12" => 5
  | "2-2x10", "6" => 9
  | "2-2x10", "8" => 8
  | "2-2x10", "10" => 7
  | "2-2x10", "12" => 13/2
  | "2-2x12", "6" => 11
  | "2-2x12", "8" => 19/2
  | "2-2x12", "10" => 17/2
  | "2-2x12", "12" => 15/2
  | "4x6", "6" => 11/2
  | "4x6", "8" => 9/2
  | "4x6", "10" => 4
  | "4x6", "12" => 7/2
  | "4x8", "6" => 7
  | "4x8", "8" => 6
  | "4x8", "10" => 11/2
  | "4x8", "12" => 5
  | "4x10", "6" => 9
  | "4x10", "8" => 8
  | "4x10", "10" => 7
  | "4x10", "12" => 13/2
  | "4x12", "6" => 11
  | "4x12", "8" => 19/2
  | "4x12", "10" => 17/2
  | "4x12", "12" => 15/2
  | _, _ => 0

/-- `code_engine.POST_HEIGHT_LIMITS` dict (direct indexing in
`_select_post_size` only ever uses the three keys below). -/
def POST_HEIGHT_LIMITS (size : String) : ℚ :=
  match size with
  | "4x4" => 8
  | "4x6" => 14
  | "6x6" => 20
  | _ => 0

/-- `POST_HEIGHT_LIMITS.get(post_size, 8.0)` as used in `generate_structure`. -/
def POST_HEIGHT_LIMITS_get (size : String) (dflt : ℚ) : ℚ :=
  match size with
  | "4x4" => 8
  | "4x6" => 14
  | "6x6" => 20
  | _ => dflt

/-- `code_engine.TOTAL_LOAD_PSF = DEAD_LOAD_PSF + LIVE_LOAD_PSF = 15 + 40`. -/
def TOTAL_LOAD_PSF : ℚ := 15 + 40

/-- `code_engine.MAX_CANTILEVER_RATIO`. -/
def MAX_CANTILEVER_RATIO : ℚ := 1/4

/-- The ascending catalog order `["2x6", "2x8", "2x10", "2x12"]` iterated by
both `_select_joist_size` and `_select_beam_size`. -/
def joistSizeOrder : List String := ["2x6", "2x8", "2x10", "2x12"]

/-- The ascending post order `["4x4", "4x6", "6x6"]` iterated by
`_select_post_size`. -/
def postSizeOrder : List String := ["4x4", "4x6", "6x6"]

/-- `code_engine._select_joist_size`: first catalog size whose tabulated max
span at `spacing` is ≥ `span_ft`, else the `ValueError` (modelled as
`Except.error`) reporting the span and the 2x12 maximum at that spacing. -/
def select_joist_size (span_ft : ℚ) (spacing_in : ℤ) : Except EngineError String :=
  match joistSizeOrder.find? (fun size => span_ft ≤ JOIST_SPANS_get size spacing_in) with
  | some size => .ok size
  | none => .error (.joistSpanExceeded span_ft (JOIST_SPANS_get "2x12" spacing_in))

/-- `code_engine._get_joist_span_category`. -/
def get_joist_span_category (joist_span_ft : ℚ) : String :=
  if joist_span_ft ≤ 6 then "6"
  else if joist_span_ft ≤ 8 then "8"
  else if joist_span_ft ≤ 10 then "10"
  else "12"

/-- `code_engine._select_beam_size`: doubled-ply configs only, first size
whose tabulated max beam span for the joist-span category is ≥ the beam
span; ply is fixed at 2. -/
def select_beam_size (beam_span_ft : ℚ) (joist_span_ft : ℚ) :
    Except EngineError (String × ℤ) :=
  let joist_cat := get_joist_span_category joist_span_ft
  match joistSizeOrder.find?
      (fun size => beam_span_ft ≤ BEAM_SPANS_get ("2-" ++ size) joist_cat) with
  | some size => .ok (size, 2)
  | none => .error (.beamSpanExceeded beam_span_ft joist_cat)

/-- `code_engine._select_post_size`: first post size whose height limit is ≥
the height, defaulting to "6x6". -/
def select_post_size (height_ft : ℚ) : String :=
  match postSizeOrder.find? (fun size => height_ft ≤ POST_HEIGHT_LIMITS size) with
  | some size => size
  | none => "6x6"

/-- The list `[12, 14, 16, 18, 20, 24]` of standard footing diameters. -/
def standardFootingSizes : List ℤ := [12, 14, 16, 18, 20, 24]

/-- The exact real value `2 * sqrt(((trib * 55) / soil) * 144 / pi)` that
`_calculate_footing_diameter` computes as `required_diameter`. -/
noncomputable def required_footing_diameter (tributary_area_sqft : ℝ)
    (soil_bearing_psf : ℤ) : ℝ :=
  2 * Real.sqrt (tributary_area_sqft * ((TOTAL_LOAD_PSF : ℚ) : ℝ) / (soil_bearing_psf : ℝ) * 144 / Real.pi)

open Classical in
/-- `code_engine._calculate_footing_diameter`: round the required diameter up
to the first standard size, defaulting to 24 when none is large enough. -/
noncomputable def calculate_footing_diameter (tributary_area_sqft : ℝ)
    (soil_bearing_psf : ℤ) : ℤ :=
  match standardFootingSizes.find?
      (fun (size : ℤ) => decide (required_footing_diameter tributary_area_sqft soil_bearing_psf ≤ (size : ℝ))) with
  | some size => size
  | none => 24

/-- `decking_thickness_ft = 1.0 / 12` in `generate_structure`. -/
def decking_thickness_ft : ℚ := 1/12

/-- `cantilever_ft` as computed by `generate_structure`: 0 for freestanding,
`min(2.0, depth * MAX_CANTILEVER_RATIO)` otherwise. -/
def cantilever_ft (s : SiteInput) : ℚ :=
  if s.ledger_attachment = .freestanding then 0
  else min 2 (s.depth_ft * MAX_CANTILEVER_RATIO)

/-- `joist_span_ft` as computed by `generate_structure`: `depth / 2` for
freestanding, `depth - cantilever_ft` otherwise. -/
def joist_span_ft (s : SiteInput) : ℚ :=
  if s.ledger_attachment = .freestanding then s.depth_ft / 2
  else s.depth_ft - cantilever_ft s

/-- `target_beam_span = 8.0` in `generate_structure`. -/
def target_beam_span : ℚ := 8

/-- `num_posts = max(2, math.ceil(width / target_beam_span) + 1)`. -/
def num_posts (s : SiteInput) : ℤ :=
  max 2 (⌈s.width_ft / target_beam_span⌉ + 1)

/-- `actual_beam_span = width / (num_posts - 1)`. -/
def actual_beam_span (s : SiteInput) : ℚ :=
  s.width_ft / ((num_posts s : ℚ) - 1)

/-- `joist_top_z = height - decking_thickness_ft`. -/
def joist_top_z (s : SiteInput) : ℚ := s.height_ft - decking_thickness_ft

/-- `joist_bottom_z = joist_top_z - joist_lumber.height_ft` (also the
`beam_top_z`). -/
def joist_bottom_z (s : SiteInput) (joist_size : String) : ℚ :=
  joist_top_z s - (LUMBER_SPECS joist_size).height_ft

/-- `beam_bottom_z = beam_top_z - beam_lumber.height_ft`; also the post
height (`post_height_ft = beam_bottom_z`, posts run from grade to beam
bottom). -/
def beam_bottom_z (s : SiteInput) (joist_size beam_size : String) : ℚ :=
  joist_bottom_z s joist_size - (LUMBER_SPECS beam_size).height_ft

/-- `beam_y_positions`: `[depth/3, 2*depth/3]` for freestanding, else
`[depth - cantilever_ft]`. -/
def beam_y_positions (s : SiteInput) : List ℚ :=
  if s.ledger_attachment = .freestanding then [s.depth_ft / 3, 2 * s.depth_ft / 3]
  else [s.depth_ft - cantilever_ft s]

/-- `num_joists = math.floor(width / joist_spacing_ft) + 1` with
`joist_spacing_ft = 16 / 12`. -/
def num_joists (s : SiteInput) : ℤ :=
  ⌊s.width_ft / ((16 : ℚ) / 12)⌋ + 1

/-- The structure returned from the cantilever-validation early exit of
`generate_structure` (only `joist_spacing_in`, `errors`, `compliant` have
been touched at that point). -/
def cantileverErrorStructure (s : SiteInput) : DeckStructure :=
  { input := s
    joist_spacing_in := 16
    errors := [.cantileverExceeded (cantilever_ft s) (s.depth_ft * MAX_CANTILEVER_RATIO) s.depth_ft]
    compliant := false }

/-- The structure returned from the joist-selection `except` branch of
`generate_structure`. -/
def joistErrorStructure (s : SiteInput) (e : EngineError) : DeckStructure :=
  { input := s
    joist_spacing_in := 16
    errors := [e]
    compliant := false }

/-- The structure returned from the beam-selection `except` branch of
`generate_structure` (`joist_size` and the joist note were already set). -/
def beamErrorStructure (s : SiteInput) (joist_size : String) (e : EngineError) :
    DeckStructure :=
  { input := s
    joist_spacing_in := 16
    joist_size := joist_size
    notes := [.joists joist_size 16 (joist_span_ft s)]
    errors := [e]
    compliant := false }

/-- The fully populated structure built by `generate_structure` once both
selectors have succeeded (lines 214-331 of `code_engine.py`): elevations,
post size, footing, and all member geometry. -/
noncomputable def successStructure (s : SiteInput) (joist_size beam_size : String)
    (beam_ply : ℤ) : DeckStructure :=
  let width := s.width_ft
  let depth := s.depth_ft
  let joist_lumber := LUMBER_SPECS joist_size
  let beam_lumber := LUMBER_SPECS beam_size
  let jbz := joist_bottom_z s joist_size
  let bbz := beam_bottom_z s joist_size beam_size
  let post_height_ft := bbz
  let post_size := select_post_size post_height_ft
  let post_lumber := LUMBER_SPECS post_size
  let n := num_posts s
  let span := actual_beam_span s
  let tributary_area := span * joist_span_ft s
  let footing_diameter := calculate_footing_diameter ((tributary_area : ℚ) : ℝ) s.soil_bearing_psf
  let bys := beam_y_positions s
  let joist_spacing_ft : ℚ := (16 : ℚ) / 12
  let nj := num_joists s
  let total_joist_width := ((nj : ℚ) - 1) * joist_spacing_ft
  let joist_start_x := -total_joist_width / 2
  { input := s
    footings := bys.flatMap (fun beamY => (List.range n.toNat).map (fun (i : ℕ) =>
      ⟨-(width / 2) + (i : ℚ) * span, beamY, footing_diameter, s.frost_depth_in⟩))
    posts := bys.flatMap (fun beamY => (List.range n.toNat).map (fun (i : ℕ) =>
      ⟨-(width / 2) + (i : ℚ) * span, beamY, post_height_ft, post_lumber⟩))
    beams := bys.map (fun beamY => ⟨-width / 2, width / 2, beamY, bbz, beam_lumber, beam_ply⟩)
    joists := (List.range nj.toNat).map (fun (i : ℕ) =>
      ⟨joist_start_x + (i : ℚ) * joist_spacing_ft, 0, depth, jbz, joist_lumber⟩)
    ledger := if s.ledger_attachment ≠ .freestanding then
      some ⟨-width / 2, width / 2, 0, jbz, joist_lumber, s.ledger_attachment.value⟩
      else none
    rim_joists := [.side "left" (-width / 2) 0 depth joist_lumber,
                   .side "right" (width / 2) 0 depth joist_lumber,
                   .outer (-width / 2) (width / 2) depth joist_lumber]
    joist_size := joist_size
    joist_spacing_in := 16
    beam_size := beam_size
    beam_ply := beam_ply
    post_size := post_size
    footing_diameter_in := footing_diameter
    compliant := true
    notes := [Note.joists joist_size 16 (joist_span_ft s),
              Note.beam beam_ply beam_size span n,
              if post_height_ft > POST_HEIGHT_LIMITS_get post_size 8
                then Note.postsReview post_size post_height_ft
                else Note.postsOk post_size post_height_ft,
              Note.footings footing_diameter s.frost_depth_in tributary_area,
              Note.joistCount nj]
    errors := [] }

/-- `code_engine.generate_structure`: cantilever validation, joist selection,
beam selection, then full assembly; each failure records its message and
returns immediately with `compliant = false`. -/
noncomputable def generate_structure (s : SiteInput) : DeckStructure :=
  if cantilever_ft s > s.depth_ft * MAX_CANTILEVER_RATIO then
    cantileverErrorStructure s
  else
    match select_joist_size (joist_span_ft s) 16 with
    | .error e => joistErrorStructure s e
    | .ok joist_size =>
      match select_beam_size (actual_beam_span s) (joist_span_ft s) with
      | .error e => beamErrorStructure s joist_size e
      | .ok (beam_size, beam_ply) => successStructure s joist_size beam_size beam_ply

/-- `_select_joist_size` abstracted over the span table, used to state that
only the table's 16-inch column can influence the choice `generate_structure`
makes (it always passes spacing 16). -/
def select_joist_size_withTable (get : String → ℤ → ℚ) (span_ft : ℚ)
    (spacing_in : ℤ) : Except EngineError String :=
  match joistSizeOrder.find? (fun size => span_ft ≤ get size spacing_in) with
  | some size => .ok size
  | none => .error (.joistSpanExceeded span_ft (get "2x12" spacing_in))

/-- Scenario: width 16, depth 12, height 3, ledger direct (defaults). -/
def site1 : SiteInput := { width_ft := 16, depth_ft := 12, height_ft := 3 }

/-- Scenario: width 20, depth 8, height 3, freestanding. -/
def site2 : SiteInput :=
  { width_ft := 20, depth_ft := 8, height_ft := 3, ledger_attachment := .freestanding }

/-- Scenario: width 16, depth 30, height 3, ledger direct: joist span 28
exceeds every table entry at 16" O.C. -/
def site3 : SiteInput := { width_ft := 16, depth_ft := 30, height_ft := 3 }

/-- A 25-foot-high deck: the post height exceeds every tabulated limit. -/
def siteTall : SiteInput := { width_ft := 4, depth_ft := 4, height_ft := 25 }

/-- A 1-foot-high deck: the stacked member depths consume the whole height,
leaving posts of height exactly 0. -/
def siteLow : SiteInput := { width_ft := 4, depth_ft := 4, height_ft := 1 }

/-! ### Branch characterization of `generate_structure` -/

lemma generate_structure_guard (s : SiteInput)
    (h : cantilever_ft s > s.depth_ft * MAX_CANTILEVER_RATIO) :
    generate_structure s = cantileverErrorStructure s := by
  unfold generate_structure
  rw [if_pos h]

lemma generate_structure_joist_err (s : SiteInput) (e : EngineError)
    (hg : ¬ cantilever_ft s > s.depth_ft * MAX_CANTILEVER_RATIO)
    (hj : select_joist_size (joist_span_ft s) 16 = .error e) :
    generate_structure s = joistErrorStructure s e := by
  unfold generate_structure
  rw [if_neg hg, hj]

lemma generate_structure_beam_err (s : SiteInput) (js : String) (e : EngineError)
    (hg : ¬ cantilever_ft s > s.depth_ft * MAX_CANTILEVER_RATIO)
    (hj : select_joist_size (joist_span_ft s) 16 = .ok js)
    (hb : select_beam_size (actual_beam_span s) (joist_span_ft s) = .error e) :
    generate_structure s = beamErrorStructure s js e := by
  unfold generate_structure
  rw [if_neg hg, hj, hb]

lemma generate_structure_ok (s : SiteInput) (js bs : String) (p : ℤ)
    (hg : ¬ cantilever_ft s > s.depth_ft * MAX_CANTILEVER_RATIO)
    (hj : select_joist_size (joist_span_ft s) 16 = .ok js)
    (hb : select_beam_size (actual_beam_span s) (joist_span_ft s) = .ok (bs, p)) :
    generate_structure s = successStructure s js bs p := by
  unfold generate_structure
  rw [if_neg hg, hj, hb]

lemma compliant_of_generate (s : SiteInput)
    (h : (generate_structure s).compliant = true) :
    ∃ js bs p, ¬ cantilever_ft s > s.depth_ft * MAX_CANTILEVER_RATIO ∧
      select_joist_size (joist_span_ft s) 16 = .ok js ∧
      select_beam_size (actual_beam_span s) (joist_span_ft s) = .ok (bs, p) ∧
      generate_structure s = successStructure s js bs p := by
  by_cases hg : cantilever_ft s > s.depth_ft * MAX_CANTILEVER_RATIO
  · rw [generate_structure_guard s hg] at h
    simp [cantileverErrorStructure] at h
  · cases hj : select_joist_size (joist_span_ft s) 16 with
    | error e =>
      rw [generate_structure_joist_err s e hg hj] at h
      simp [joistErrorStructure] at h
    | ok js =>
      cases hb : select_beam_size (actual_beam_span s) (joist_span_ft s) with
      | error e =>
        rw [generate_structure_beam_err s js e hg hj hb] at h
        simp [beamErrorStructure] at h
      | ok bp =>
        obtain ⟨bs, p⟩ := bp
        exact ⟨js, bs, p, hg, rfl, rfl, generate_structure_ok s js bs p hg hj hb⟩

/-! ### Projection lemmas for the four result structures -/

lemma successStructure_compliant (s : SiteInput) (js bs : String) (p : ℤ) :
    (successStructure s js bs p).compliant = true := rfl

lemma successStructure_errors (s : SiteInput) (js bs : String) (p : ℤ) :
    (successStructure s js bs p).errors = [] := rfl

lemma successStructure_joist_spacing (s : SiteInput) (js bs : String) (p : ℤ) :
    (successStructure s js bs p).joist_spacing_in = 16 := rfl

lemma successStructure_beams (s : SiteInput) (js bs : String) (p : ℤ) :
    (successStructure s js bs p).beams =
      (beam_y_positions s).map (fun beamY =>
        ⟨-s.width_ft / 2, s.width_ft / 2, beamY, beam_bottom_z s js bs,
          LUMBER_SPECS bs, p⟩) := rfl

lemma successStructure_posts (s : SiteInput) (js bs : String) (p : ℤ) :
    (successStructure s js bs p).posts =
      (beam_y_positions s).flatMap (fun beamY =>
        (List.range (num_posts s).toNat).map (fun (i : ℕ) =>
          ⟨-(s.width_ft / 2) + (i : ℚ) * actual_beam_span s, beamY,
            beam_bottom_z s js bs, LUMBER_SPECS (select_post_size (beam_bottom_z s js bs))⟩)) := rfl

lemma successStructure_joists (s : SiteInput) (js bs : String) (p : ℤ) :
    (successStructure s js bs p).joists =
      (List.range (num_joists s).toNat).map (fun (i : ℕ) =>
        ⟨-(((num_joists s : ℚ) - 1) * ((16 : ℚ) / 12)) / 2 + (i : ℚ) * ((16 : ℚ) / 12),
          0, s.depth_ft, joist_bottom_z s js, LUMBER_SPECS js⟩) := rfl

lemma successStructure_footings (s : SiteInput) (js bs : String) (p : ℤ) :
    (successStructure s js bs p).footings =
      (beam_y_positions s).flatMap (fun beamY =>
        (List.range (num_posts s).toNat).map (fun (i : ℕ) =>
          ⟨-(s.width_ft / 2) + (i : ℚ) * actual_beam_span s, beamY,
            calculate_footing_diameter ((actual_beam_span s * joist_span_ft s : ℚ) : ℝ)
              s.soil_bearing_psf, s.frost_depth_in⟩)) := rfl

lemma successStructure_ledger (s : SiteInput) (js bs : String) (p : ℤ) :
    (successStructure s js bs p).ledger =
      (if s.ledger_attachment ≠ .freestanding then
        some ⟨-s.width_ft / 2, s.width_ft / 2, 0, joist_bottom_z s js,
          LUMBER_SPECS js, s.ledger_attachment.value⟩
        else none) := rfl

lemma successStructure_notes (s : SiteInput) (js bs : String) (p : ℤ) :
    (successStructure s js bs p).notes =
      [Note.joists js 16 (joist_span_ft s),
       Note.beam p bs (actual_beam_span s) (num_posts s),
       if beam_bottom_z s js bs >
          POST_HEIGHT_LIMITS_get (select_post_size (beam_bottom_z s js bs)) 8
         then Note.postsReview (select_post_size (beam_bottom_z s js bs)) (beam_bottom_z s js bs)
         else Note.postsOk (select_post_size (beam_bottom_z s js bs)) (beam_bottom_z s js bs),
       Note.footings (calculate_footing_diameter ((actual_beam_span s * joist_span_ft s : ℚ) : ℝ)
           s.soil_bearing_psf) s.frost_depth_in (actual_beam_span s * joist_span_ft s),
       Note.joistCount (num_joists s)] := rfl

/-! ### Catalog facts -/

lemma select_joist_size_ok_mem {span : ℚ} {sp : ℤ} {js : String}
    (h : select_joist_size span sp = .ok js) : js ∈ joistSizeOrder := by
  unfold select_joist_size at h
  cases hf : joistSizeOrder.find? (fun size => span ≤ JOIST_SPANS_get size sp) with
  | none => rw [hf] at h; exact absurd h (by simp)
  | some sz =>
    rw [hf] at h
    cases h
    exact List.mem_of_find?_eq_some hf

lemma select_beam_size_eq_find (b j : ℚ) :
    select_beam_size b j =
      match joistSizeOrder.find?
          (fun size => b ≤ BEAM_SPANS_get ("2-" ++ size) (get_joist_span_category j)) with
      | some size => .ok (size, 2)
      | none => .error (.beamSpanExceeded b (get_joist_span_category j)) := rfl

lemma select_beam_size_ok_mem {b j : ℚ} {bs : String} {p : ℤ}
    (h : select_beam_size b j = .ok (bs, p)) : bs ∈ joistSizeOrder := by
  rw [select_beam_size_eq_find] at h
  cases hf : joistSizeOrder.find?
      (fun size => b ≤ BEAM_SPANS_get ("2-" ++ size) (get_joist_span_category j)) with
  | none => rw [hf] at h; exact absurd h (by simp)
  | some sz =>
    rw [hf] at h
    cases h
    exact List.mem_of_find?_eq_some hf

lemma lumber_height_pos {sz : String} (h : sz ∈ joistSizeOrder) :
    0 < (LUMBER_SPECS sz).height_ft := by
  simp [joistSizeOrder] at h
  rcases h with h | h | h | h <;>
    simp [h, LUMBER_SPECS, LumberSpec.height_ft]

/-! ### Selector specifications -/

lemma select_joist_size_ok_spec {span : ℚ} {sp : ℤ} {sz : String}
    (h : select_joist_size span sp = .ok sz) :
    span ≤ JOIST_SPANS_get sz sp ∧
      ∃ pre suf, joistSizeOrder = pre ++ sz :: suf ∧
        ∀ s' ∈ pre, JOIST_SPANS_get s' sp < span := by
  unfold select_joist_size at h
  cases hf : joistSizeOrder.find? (fun size => span ≤ JOIST_SPANS_get size sp) with
  | none => rw [hf] at h; simp at h
  | some sz' =>
    rw [hf] at h
    simp only [Except.ok.injEq] at h
    subst h
    obtain ⟨hp, pre, suf, heq, hpre⟩ := List.find?_eq_some.mp hf
    refine ⟨by simpa using hp, pre, suf, heq, fun s' hs' => ?_⟩
    have := hpre s' hs'
    simp at this
    exact this

lemma select_joist_size_error_spec {span : ℚ} {sp : ℤ} {e : EngineError}
    (h : select_joist_size span sp = .error e) :
    e = .joistSpanExceeded span (JOIST_SPANS_get "2x12" sp) ∧
      ∀ s' ∈ joistSizeOrder, JOIST_SPANS_get s' sp < span := by
  unfold select_joist_size at h
  cases hf : joistSizeOrder.find? (fun size => span ≤ JOIST_SPANS_get size sp) with
  | some sz => rw [hf] at h; simp at h
  | none =>
    rw [hf] at h
    simp only [Except.error.injEq] at h
    refine ⟨h.symm, fun s' hs' => ?_⟩
    have := List.find?_eq_none.mp hf s' hs'
    simpa using this

lemma select_beam_size_ok_spec {b j : ℚ} {bs : String} {p : ℤ}
    (h : select_beam_size b j = .ok (bs, p)) :
    p = 2 ∧ b ≤ BEAM_SPANS_get ("2-" ++ bs) (get_joist_span_category j) ∧
      ∃ pre suf, joistSizeOrder = pre ++ bs :: suf ∧
        ∀ s' ∈ pre, BEAM_SPANS_get ("2-" ++ s') (get_joist_span_category j) < b := by
  rw [select_beam_size_eq_find] at h
  cases hf : joistSizeOrder.find?
      (fun size => b ≤ BEAM_SPANS_get ("2-" ++ size) (get_joist_span_category j)) with
  | none => rw [hf] at h; simp at h
  | some sz' =>
    rw [hf] at h
    simp only [Except.ok.injEq, Prod.mk.injEq] at h
    obtain ⟨h1, h2⟩ := h
    subst h1
    obtain ⟨hp, pre, suf, heq, hpre⟩ := List.find?_eq_some.mp hf
    refine ⟨h2.symm, by simpa using hp, pre, suf, heq, fun s' hs' => ?_⟩
    have := hpre s' hs'
    simp at this
    exact this

lemma select_beam_size_error_spec {b j : ℚ} {e : EngineError}
    (h : select_beam_size b j = .error e) :
    e = .beamSpanExceeded b (get_joist_span_category j) ∧
      ∀ s' ∈ joistSizeOrder,
        BEAM_SPANS_get ("2-" ++ s') (get_joist_span_category j) < b := by
  rw [select_beam_size_eq_find] at h
  cases hf : joistSizeOrder.find?
      (fun size => b ≤ BEAM_SPANS_get ("2-" ++ size) (get_joist_span_category j)) with
  | some sz => rw [hf] at h; simp at h
  | none =>
    rw [hf] at h
    simp only [Except.error.injEq] at h
    refine ⟨h.symm, fun s' hs' => ?_⟩
    have := List.find?_eq_none.mp hf s' hs'
    simpa using this

/-! ### Claim theorems -/

/-- C3: for every required span and spacing in {12, 16, 24}, the joist
selector iterates the catalog in ascending nominal order and returns the
first (hence smallest) size whose tabulated max span at that spacing is ≥
the required span — no smaller catalog size also qualifies — and fails with
a `SpanExceeded` condition reporting the maximum achievable span of 2x12 at
that spacing when no size qualifies. -/
theorem C3_joist_selector_first_fit (span : ℚ) (spacing : ℤ)
    (hsp : spacing = 12 ∨ spacing = 16 ∨ spacing = 24) :
    (∀ sz, select_joist_size span spacing = .ok sz →
      span ≤ JOIST_SPANS_get sz spacing ∧
      ∃ pre suf, joistSizeOrder = pre ++ sz :: suf ∧
        ∀ s' ∈ pre, JOIST_SPANS_get s' spacing < span) ∧
    (∀ e, select_joist_size span spacing = .error e →
      e = .joistSpanExceeded span (JOIST_SPANS_get "2x12" spacing) ∧
      ∀ s' ∈ joistSizeOrder, JOIST_SPANS_get s' spacing < span) :=
  ⟨fun _ h => select_joist_size_ok_spec h,
   fun _ h => select_joist_size_error_spec h⟩

/-- Witness for C3 at span 10 ft, spacing 16 in: the selector returns some
size satisfying the first-fit property (concretely it is "2x8"). -/
theorem C3_joist_selector_first_fit_witness :
    (∀ sz, select_joist_size 10 16 = .ok sz →
      (10 : ℚ) ≤ JOIST_SPANS_get sz 16 ∧
      ∃ pre suf, joistSizeOrder = pre ++ sz :: suf ∧
        ∀ s' ∈ pre, JOIST_SPANS_get s' 16 < 10) ∧
    (∀ e, select_joist_size 10 16 = .error e →
      e = .joistSpanExceeded 10 (JOIST_SPANS_get "2x12" 16) ∧
      ∀ s' ∈ joistSizeOrder, JOIST_SPANS_get s' 16 < 10) :=
  C3_joist_selector_first_fit 10 16 (by norm_num)

/-- C4: the beam selector maps the joist span to category "6"/"8"/"10"/"12"
by rounding up at the boundaries {6, 8, 10}, considers only doubled-ply
"2-(size)" configurations in ascending order, returns the first whose
tabulated max span for that category is ≥ the beam span together with
ply = 2, and fails with `SpanExceeded` if none qualifies. -/
theorem C4_beam_selector_first_fit (b j : ℚ) :
    get_joist_span_category j =
      (if j ≤ 6 then "6" else if j ≤ 8 then "8" else if j ≤ 10 then "10" else "12") ∧
    (∀ sz p, select_beam_size b j = .ok (sz, p) →
      p = 2 ∧ b ≤ BEAM_SPANS_get ("2-" ++ sz) (get_joist_span_category j) ∧
      ∃ pre suf, joistSizeOrder = pre ++ sz :: suf ∧
        ∀ s' ∈ pre, BEAM_SPANS_get ("2-" ++ s') (get_joist_span_category j) < b) ∧
    (∀ e, select_beam_size b j = .error e →
      e = .beamSpanExceeded b (get_joist_span_category j) ∧
      ∀ s' ∈ joistSizeOrder,
        BEAM_SPANS_get ("2-" ++ s') (get_joist_span_category j) < b) :=
  ⟨rfl,
   fun _ _ h => select_beam_size_ok_spec h,
   fun _ h => select_beam_size_error_spec h⟩

/-- C8: for every width > 0, the post count is max(2, ceil(width/8) + 1),
the actual beam span is width / (post count − 1), and this span is ≤ the
8-foot target and evenly subdivides the width. -/
theorem C8_post_spacing (s : SiteInput) (hw : 0 < s.width_ft) :
    num_posts s = max 2 (⌈s.width_ft / 8⌉ + 1) ∧
    actual_beam_span s = s.width_ft / ((num_posts s : ℚ) - 1) ∧
    actual_beam_span s ≤ 8 ∧
    ((num_posts s : ℚ) - 1) * actual_beam_span s = s.width_ft := by
  have hc : 1 ≤ ⌈s.width_ft / 8⌉ := by
    have : (0 : ℚ) < s.width_ft / 8 := by positivity
    exact Int.ceil_pos.mpr this
  have hn : num_posts s = ⌈s.width_ft / 8⌉ + 1 := by
    unfold num_posts target_beam_span
    exact max_eq_right (by omega)
  have hcastpos : (0 : ℚ) < (num_posts s : ℚ) - 1 := by
    rw [hn]
    push_cast
    have : (1 : ℚ) ≤ (⌈s.width_ft / 8⌉ : ℚ) := by exact_mod_cast hc
    linarith
  refine ⟨by rw [hn]; exact (max_eq_right (by omega)).symm, rfl, ?_, ?_⟩
  · unfold actual_beam_span
    rw [div_le_iff₀ hcastpos]
    have hle : s.width_ft / 8 ≤ (⌈s.width_ft / 8⌉ : ℚ) := Int.le_ceil _
    rw [hn]
    push_cast
    nlinarith
  · unfold actual_beam_span
    field_simp

/-- Witness for C8 at width 16 (site1): post count 3, beam span 8 = 16/2. -/
theorem C8_post_spacing_witness :
    (0 : ℚ) < site1.width_ft ∧
    (num_posts site1 = max 2 (⌈site1.width_ft / 8⌉ + 1) ∧
     actual_beam_span site1 = site1.width_ft / ((num_posts site1 : ℚ) - 1) ∧
     actual_beam_span site1 ≤ 8 ∧
     ((num_posts site1 : ℚ) - 1) * actual_beam_span site1 = site1.width_ft) :=
  ⟨by norm_num [site1], C8_post_spacing site1 (by norm_num [site1])⟩

/-- C10: the joist spacing is hard-coded at 16" O.C.: every returned
structure (on every branch, for every input) has `joist_spacing_in = 16`,
and the joist selection at spacing 16 depends only on the 16-inch column of
the span table, so the 12" and 24" columns are never consulted. -/
theorem C10_spacing_hardcoded :
    (∀ s : SiteInput, (generate_structure s).joist_spacing_in = 16) ∧
    (∀ get : String → ℤ → ℚ, ∀ span : ℚ,
      (∀ sz ∈ joistSizeOrder, get sz 16 = JOIST_SPANS_get sz 16) →
      select_joist_size_withTable get span 16 = select_joist_size span 16) := by
  constructor
  · intro s
    by_cases hg : cantilever_ft s > s.depth_ft * MAX_CANTILEVER_RATIO
    · rw [generate_structure_guard s hg]; rfl
    · cases hj : select_joist_size (joist_span_ft s) 16 with
      | error e => rw [generate_structure_joist_err s e hg hj]; rfl
      | ok js =>
        cases hb : select_beam_size (actual_beam_span s) (joist_span_ft s) with
        | error e => rw [generate_structure_beam_err s js e hg hj hb]; rfl
        | ok bp =>
          rw [generate_structure_ok s js bp.1 bp.2 hg hj (by rw [hb])]
          rfl
  · intro get span h
    have h6 := h "2x6" (by simp [joistSizeOrder])
    have h8 := h "2x8" (by simp [joistSizeOrder])
    have h10 := h "2x10" (by simp [joistSizeOrder])
    have h12 := h "2x12" (by simp [joistSizeOrder])
    unfold select_joist_size_withTable select_joist_size
    simp only [joistSizeOrder, List.find?, h6, h8, h10, h12]

/-- Witness for C10: the always-16 fact at site1 together with the
table-restriction fact applied to the table itself at span 10. -/
theorem C10_spacing_hardcoded_witness :
    (generate_structure site1).joist_spacing_in = 16 ∧
    select_joist_size_withTable JOIST_SPANS_get 10 16 = select_joist_size 10 16 :=
  ⟨C10_spacing_hardcoded.1 site1,
   C10_spacing_hardcoded.2 JOIST_SPANS_get 10 (fun _ _ => rfl)⟩

/-- C6: under depth > 0 the chosen cantilever (0 when freestanding,
min(2, 0.25·depth) when ledger-attached) never exceeds 25% of the depth, so
the cantilever-exceeded error branch is unreachable: its guard is false and
no cantilever error ever appears in the output. -/
theorem C6_cantilever_within_limit (s : SiteInput) (hd : 0 < s.depth_ft) :
    cantilever_ft s ≤ s.depth_ft * MAX_CANTILEVER_RATIO ∧
    ¬ cantilever_ft s > s.depth_ft * MAX_CANTILEVER_RATIO ∧
    ∀ e ∈ (generate_structure s).errors, ∀ c m d, e ≠ .cantileverExceeded c m d := by
  have h1 : cantilever_ft s ≤ s.depth_ft * MAX_CANTILEVER_RATIO := by
    unfold cantilever_ft
    split
    · unfold MAX_CANTILEVER_RATIO
      linarith
    · exact min_le_right _ _
  have h2 : ¬ cantilever_ft s > s.depth_ft * MAX_CANTILEVER_RATIO := not_lt.mpr h1
  refine ⟨h1, h2, ?_⟩
  cases hj : select_joist_size (joist_span_ft s) 16 with
  | error e =>
    rw [generate_structure_joist_err s e h2 hj]
    obtain ⟨he, -⟩ := select_joist_size_error_spec hj
    subst he
    intro e' he' c m d
    simp [joistErrorStructure] at he'
    subst he'
    simp
  | ok js =>
    cases hb : select_beam_size (actual_beam_span s) (joist_span_ft s) with
    | error e =>
      rw [generate_structure_beam_err s js e h2 hj hb]
      obtain ⟨he, -⟩ := select_beam_size_error_spec hb
      subst he
      intro e' he' c m d
      simp [beamErrorStructure] at he'
      subst he'
      simp
    | ok bp =>
      rw [generate_structure_ok s js bp.1 bp.2 h2 hj (by rw [hb])]
      intro e' he'
      rw [successStructure_errors] at he'
      simp at he'

/-- Witness for C6 at site1 (depth 12 > 0). -/
theorem C6_cantilever_within_limit_witness :
    cantilever_ft site1 ≤ site1.depth_ft * MAX_CANTILEVER_RATIO ∧
    ¬ cantilever_ft site1 > site1.depth_ft * MAX_CANTILEVER_RATIO ∧
    ∀ e ∈ (generate_structure site1).errors, ∀ c m d,
      e ≠ .cantileverExceeded c m d :=
  C6_cantilever_within_limit site1 (by norm_num [site1])

/-- C5: a `SpanExceeded` failure of the joist or beam selector is recorded
into `errors` (as the selector's message), sets `compliant = false`, and
returns immediately with no geometry generated; when both selectors succeed
no `SpanExceeded` error is recorded. -/
theorem C5_span_errors_halt (s : SiteInput) :
    (∀ e, ¬ cantilever_ft s > s.depth_ft * MAX_CANTILEVER_RATIO →
      select_joist_size (joist_span_ft s) 16 = .error e →
      (generate_structure s).errors = [e] ∧
      (generate_structure s).compliant = false ∧
      (generate_structure s).footings = [] ∧
      (generate_structure s).posts = [] ∧
      (generate_structure s).beams = [] ∧
      (generate_structure s).joists = [] ∧
      (generate_structure s).ledger = none ∧
      (generate_structure s).rim_joists = []) ∧
    (∀ js e, ¬ cantilever_ft s > s.depth_ft * MAX_CANTILEVER_RATIO →
      select_joist_size (joist_span_ft s) 16 = .ok js →
      select_beam_size (actual_beam_span s) (joist_span_ft s) = .error e →
      (generate_structure s).errors = [e] ∧
      (generate_structure s).compliant = false ∧
      (generate_structure s).footings = [] ∧
      (generate_structure s).posts = [] ∧
      (generate_structure s).beams = [] ∧
      (generate_structure s).joists = [] ∧
      (generate_structure s).ledger = none ∧
      (generate_structure s).rim_joists = []) ∧
    (∀ js bs p, select_joist_size (joist_span_ft s) 16 = .ok js →
      select_beam_size (actual_beam_span s) (joist_span_ft s) = .ok (bs, p) →
      ∀ e ∈ (generate_structure s).errors,
        (∀ a m, e ≠ .joistSpanExceeded a m) ∧ (∀ a c, e ≠ .beamSpanExceeded a c)) := by
  refine ⟨?_, ?_, ?_⟩
  · intro e hg hj
    rw [generate_structure_joist_err s e hg hj]
    exact ⟨rfl, rfl, rfl, rfl, rfl, rfl, rfl, rfl⟩
  · intro js e hg hj hb
    rw [generate_structure_beam_err s js e hg hj hb]
    exact ⟨rfl, rfl, rfl, rfl, rfl, rfl, rfl, rfl⟩
  · intro js bs p hj hb
    by_cases hg : cantilever_ft s > s.depth_ft * MAX_CANTILEVER_RATIO
    · rw [generate_structure_guard s hg]
      intro e he
      simp [cantileverErrorStructure] at he
      subst he
      simp
    · rw [generate_structure_ok s js bs p hg hj hb]
      intro e he
      rw [successStructure_errors] at he
      simp at he

/-- C9: on success, freestanding inputs get no cantilever, joist span
depth/2, exactly two beam rows at depth/3 and 2·depth/3, and no ledger; the
ledger is present iff the attachment is not freestanding, in which case
there is exactly one beam row at depth − cantilever. -/
theorem C9_attachment_geometry (s : SiteInput)
    (h : (generate_structure s).compliant = true) :
    ((generate_structure s).ledger.isSome ↔ s.ledger_attachment ≠ .freestanding) ∧
    (s.ledger_attachment = .freestanding →
      cantilever_ft s = 0 ∧ joist_span_ft s = s.depth_ft / 2 ∧
      (generate_structure s).beams.map Beam.y_ft =
        [s.depth_ft / 3, 2 * s.depth_ft / 3] ∧
      (generate_structure s).ledger = none) ∧
    (s.ledger_attachment ≠ .freestanding →
      (generate_structure s).beams.map Beam.y_ft = [s.depth_ft - cantilever_ft s] ∧
      ∃ l, (generate_structure s).ledger = some l) := by
  obtain ⟨js, bs, p, hg, hj, hb, heq⟩ := compliant_of_generate s h
  rw [heq, successStructure_ledger, successStructure_beams]
  unfold beam_y_positions
  by_cases hfree : s.ledger_attachment = .freestanding
  · rw [if_pos hfree]
    refine ⟨by simp [hfree], fun _ => ⟨?_, ?_, by simp, by simp [hfree]⟩,
      fun hne => absurd hfree hne⟩
    · unfold cantilever_ft
      rw [if_pos hfree]
    · unfold joist_span_ft
      rw [if_pos hfree]
  · rw [if_neg hfree]
    exact ⟨by simp [hfree], fun hf => absurd hf hfree,
      fun _ => ⟨by simp, by simp [hfree]⟩⟩

/-- C7: the post selector returns the first size in {4x4, 4x6, 6x6} whose
height limit is ≥ the height, or 6x6 when none qualifies; an over-limit post
height produces only the engineering-review advisory note, never an error,
and leaves `compliant` true. -/
theorem C7_post_advisory :
    (∀ hgt : ℚ,
      (hgt ≤ POST_HEIGHT_LIMITS (select_post_size hgt) ∧
       ∃ pre suf, postSizeOrder = pre ++ select_post_size hgt :: suf ∧
         ∀ s' ∈ pre, POST_HEIGHT_LIMITS s' < hgt) ∨
      (select_post_size hgt = "6x6" ∧
       ∀ sz ∈ postSizeOrder, POST_HEIGHT_LIMITS sz < hgt)) ∧
    (∀ s : SiteInput, ∀ js bs p,
      ¬ cantilever_ft s > s.depth_ft * MAX_CANTILEVER_RATIO →
      select_joist_size (joist_span_ft s) 16 = .ok js →
      select_beam_size (actual_beam_span s) (joist_span_ft s) = .ok (bs, p) →
      (generate_structure s).compliant = true ∧
      (generate_structure s).errors = [] ∧
      (beam_bottom_z s js bs >
          POST_HEIGHT_LIMITS_get (select_post_size (beam_bottom_z s js bs)) 8 →
        Note.postsReview (select_post_size (beam_bottom_z s js bs))
            (beam_bottom_z s js bs) ∈ (generate_structure s).notes) ∧
      (¬ beam_bottom_z s js bs >
          POST_HEIGHT_LIMITS_get (select_post_size (beam_bottom_z s js bs)) 8 →
        Note.postsOk (select_post_size (beam_bottom_z s js bs))
            (beam_bottom_z s js bs) ∈ (generate_structure s).notes)) := by
  constructor
  · intro hgt
    unfold select_post_size
    cases hf : postSizeOrder.find? (fun size => hgt ≤ POST_HEIGHT_LIMITS size) with
    | some sz =>
      left
      obtain ⟨hp, pre, suf, heq, hpre⟩ := List.find?_eq_some.mp hf
      refine ⟨by simpa using hp, pre, suf, heq, fun s' hs' => ?_⟩
      have := hpre s' hs'
      simp at this
      exact this
    | none =>
      right
      refine ⟨rfl, fun sz hsz => ?_⟩
      have := List.find?_eq_none.mp hf sz hsz
      simpa using this
  · intro s js bs p hg hj hb
    rw [generate_structure_ok s js bs p hg hj hb]
    refine ⟨rfl, rfl, ?_, ?_⟩
    · intro ht
      rw [successStructure_notes]
      simp [if_pos ht]
    · intro ht
      rw [successStructure_notes]
      simp [if_neg ht]

/-- Closed form of `_calculate_footing_diameter`: the find-first loop over
the ascending standard sizes is the evident nested conditional, with the
24-inch soft clamp when no standard size is large enough. -/
lemma calculate_footing_diameter_eq (t : ℝ) (soil : ℤ) :
    calculate_footing_diameter t soil =
      if required_footing_diameter t soil ≤ ((12 : ℤ) : ℝ) then 12
      else if required_footing_diameter t soil ≤ ((14 : ℤ) : ℝ) then 14
      else if required_footing_diameter t soil ≤ ((16 : ℤ) : ℝ) then 16
      else if required_footing_diameter t soil ≤ ((18 : ℤ) : ℝ) then 18
      else if required_footing_diameter t soil ≤ ((20 : ℤ) : ℝ) then 20
      else if required_footing_diameter t soil ≤ ((24 : ℤ) : ℝ) then 24
      else 24 := by
  unfold calculate_footing_diameter standardFootingSizes
  by_cases h12 : required_footing_diameter t soil ≤ ((12 : ℤ) : ℝ)
  · simp only [List.find?, decide_eq_true h12]
    rw [if_pos h12]
  · by_cases h14 : required_footing_diameter t soil ≤ ((14 : ℤ) : ℝ)
    · simp only [List.find?, decide_eq_false h12, decide_eq_true h14]
      rw [if_neg h12, if_pos h14]
    · by_cases h16 : required_footing_diameter t soil ≤ ((16 : ℤ) : ℝ)
      · simp only [List.find?, decide_eq_false h12, decide_eq_false h14, decide_eq_true h16]
        rw [if_neg h12, if_neg h14, if_pos h16]
      · by_cases h18 : required_footing_diameter t soil ≤ ((18 : ℤ) : ℝ)
        · simp only [List.find?, decide_eq_false h12, decide_eq_false h14,
            decide_eq_false h16, decide_eq_true h18]
          rw [if_neg h12, if_neg h14, if_neg h16, if_pos h18]
        · by_cases h20 : required_footing_diameter t soil ≤ ((20 : ℤ) : ℝ)
          · simp only [List.find?, decide_eq_false h12, decide_eq_false h14,
              decide_eq_false h16, decide_eq_false h18, decide_eq_true h20]
            rw [if_neg h12, if_neg h14, if_neg h16, if_neg h18, if_pos h20]
          · by_cases h24 : required_footing_diameter t soil ≤ ((24 : ℤ) : ℝ)
            · simp only [List.find?, decide_eq_false h12, decide_eq_false h14,
                decide_eq_false h16, decide_eq_false h18, decide_eq_false h20,
                decide_eq_true h24]
              rw [if_neg h12, if_neg h14, if_neg h16, if_neg h18, if_neg h20, if_pos h24]
            · simp only [List.find?, decide_eq_false h12, decide_eq_false h14,
                decide_eq_false h16, decide_eq_false h18, decide_eq_false h20,
                decide_eq_false h24]
              rw [if_neg h12, if_neg h14, if_neg h16, if_neg h18, if_neg h20, if_neg h24]

/-- C2 (amended): for every tributary area > 0 and soil bearing capacity
> 0, the footing diameter is a member of {12, 14, 16, 18, 20, 24}; whenever
the required diameter 2·√(A/π) is ≤ 24 it is ≤ the returned diameter; and no
smaller standard diameter satisfies the requirement.  (The original claim's
unconditional "required ≤ returned" fails under the 24-inch soft clamp; see
the counterexample.) -/
theorem C2_footing_rounding (t : ℝ) (soil : ℤ) (ht : 0 < t) (hs : 0 < soil) :
    calculate_footing_diameter t soil ∈ standardFootingSizes ∧
    (required_footing_diameter t soil ≤ 24 →
      required_footing_diameter t soil ≤ ((calculate_footing_diameter t soil : ℤ) : ℝ)) ∧
    ∀ d ∈ standardFootingSizes,
      (d : ℝ) < ((calculate_footing_diameter t soil : ℤ) : ℝ) →
      ¬ required_footing_diameter t soil ≤ (d : ℝ) := by
  rw [calculate_footing_diameter_eq]
  by_cases h12 : required_footing_diameter t soil ≤ ((12 : ℤ) : ℝ)
  · rw [if_pos h12]
    refine ⟨by simp [standardFootingSizes], fun _ => by push_cast at h12 ⊢; linarith, ?_⟩
    intro d hd hlt hc
    simp [standardFootingSizes] at hd
    rcases hd with rfl | rfl | rfl | rfl | rfl | rfl <;> push_cast at hlt <;> linarith
  · by_cases h14 : required_footing_diameter t soil ≤ ((14 : ℤ) : ℝ)
    · rw [if_neg h12, if_pos h14]
      refine ⟨by simp [standardFootingSizes], fun _ => by push_cast at h14 ⊢; linarith, ?_⟩
      intro d hd hlt hc
      simp [standardFootingSizes] at hd
      push_cast at h12
      rcases hd with rfl | rfl | rfl | rfl | rfl | rfl <;> push_cast at hlt hc <;>
        first | exact h12 hc | linarith
    · by_cases h16 : required_footing_diameter t soil ≤ ((16 : ℤ) : ℝ)
      · rw [if_neg h12, if_neg h14, if_pos h16]
        refine ⟨by simp [standardFootingSizes], fun _ => by push_cast at h16 ⊢; linarith, ?_⟩
        intro d hd hlt hc
        simp [standardFootingSizes] at hd
        push_cast at h12 h14
        rcases hd with rfl | rfl | rfl | rfl | rfl | rfl <;> push_cast at hlt hc <;>
          first | exact h12 hc | exact h14 hc | linarith
      · by_cases h18 : required_footing_diameter t soil ≤ ((18 : ℤ) : ℝ)
        · rw [if_neg h12, if_neg h14, if_neg h16, if_pos h18]
          refine ⟨by simp [standardFootingSizes], fun _ => by push_cast at h18 ⊢; linarith, ?_⟩
          intro d hd hlt hc
          simp [standardFootingSizes] at hd
          push_cast at h12 h14 h16
          rcases hd with rfl | rfl | rfl | rfl | rfl | rfl <;> push_cast at hlt hc <;>
            first | exact h12 hc | exact h14 hc | exact h16 hc | linarith
        · by_cases h20 : required_footing_diameter t soil ≤ ((20 : ℤ) : ℝ)
          · rw [if_neg h12, if_neg h14, if_neg h16, if_neg h18, if_pos h20]
            refine ⟨by simp [standardFootingSizes], fun _ => by push_cast at h20 ⊢; linarith, ?_⟩
            intro d hd hlt hc
            simp [standardFootingSizes] at hd
            push_cast at h12 h14 h16 h18
            rcases hd with rfl | rfl | rfl | rfl | rfl | rfl <;> push_cast at hlt hc <;>
              first | exact h12 hc | exact h14 hc | exact h16 hc | exact h18 hc | linarith
          · by_cases h24 : required_footing_diameter t soil ≤ ((24 : ℤ) : ℝ)
            · rw [if_neg h12, if_neg h14, if_neg h16, if_neg h18, if_neg h20, if_pos h24]
              refine ⟨by simp [standardFootingSizes],
                fun _ => by push_cast at h24 ⊢; linarith, ?_⟩
              intro d hd hlt hc
              simp [standardFootingSizes] at hd
              push_cast at h12 h14 h16 h18 h20
              rcases hd with rfl | rfl | rfl | rfl | rfl | rfl <;> push_cast at hlt hc <;>
                first | exact h12 hc | exact h14 hc | exact h16 hc | exact h18 hc
                      | exact h20 hc | linarith
            · rw [if_neg h12, if_neg h14, if_neg h16, if_neg h18, if_neg h20, if_neg h24]
              refine ⟨by simp [standardFootingSizes],
                fun hc => by push_cast at h24 ⊢; linarith, ?_⟩
              intro d hd hlt hc
              simp [standardFootingSizes] at hd
              push_cast at h12 h14 h16 h18 h20 h24
              rcases hd with rfl | rfl | rfl | rfl | rfl | rfl <;> push_cast at hlt hc <;>
                first | exact h12 hc | exact h14 hc | exact h16 hc | exact h18 hc
                      | exact h20 hc | exact h24 hc | linarith

/-- Witness for C2 at the spec's scenario 5: tributary area 80 sqft, soil
1500 psf (required diameter ≈ 23.2", returned 24"). -/
theorem C2_footing_rounding_witness :
    ((0 : ℝ) < 80 ∧ (0 : ℤ) < 1500) ∧
    (calculate_footing_diameter 80 1500 ∈ standardFootingSizes ∧
     (required_footing_diameter 80 1500 ≤ 24 →
       required_footing_diameter 80 1500 ≤ ((calculate_footing_diameter 80 1500 : ℤ) : ℝ)) ∧
     ∀ d ∈ standardFootingSizes,
       (d : ℝ) < ((calculate_footing_diameter 80 1500 : ℤ) : ℝ) →
       ¬ required_footing_diameter 80 1500 ≤ (d : ℝ)) :=
  ⟨⟨by norm_num, by norm_num⟩, C2_footing_rounding 80 1500 (by norm_num) (by norm_num)⟩

/-- Counterexample to C2 as stated: at tributary area 100 sqft and soil
1500 psf the required diameter is 2·√(528/π) ≈ 25.9 in > 24, the loop finds
no standard size and soft-clamps to 24, so "required ≤ returned" fails. -/
theorem C2_footing_rounding_counterexample :
    ((0 : ℝ) < 100 ∧ (0 : ℤ) < 1500) ∧
    calculate_footing_diameter 100 1500 = 24 ∧
    ¬ required_footing_diameter 100 1500 ≤
        ((calculate_footing_diameter 100 1500 : ℤ) : ℝ) := by
  have hT : ((TOTAL_LOAD_PSF : ℚ) : ℝ) = 55 := by norm_num [TOTAL_LOAD_PSF]
  have hr : (24 : ℝ) < required_footing_diameter 100 1500 := by
    unfold required_footing_diameter
    rw [hT]
    have hA : (100 : ℝ) * 55 / ((1500 : ℤ) : ℝ) * 144 / Real.pi = 528 / Real.pi := by
      push_cast
      ring
    rw [hA]
    have h144 : (144 : ℝ) < 528 / Real.pi := by
      rw [lt_div_iff₀ Real.pi_pos]
      nlinarith [Real.pi_lt_d2]
    have h12 : (12 : ℝ) < Real.sqrt (528 / Real.pi) := by
      rw [Real.lt_sqrt (by norm_num)]
      norm_num
      exact h144
    linarith
  have hn : ∀ c : ℝ, c ≤ 24 → ¬ required_footing_diameter 100 1500 ≤ c :=
    fun c hcle hc => absurd hc (by linarith)
  have hv : calculate_footing_diameter 100 1500 = 24 := by
    rw [calculate_footing_diameter_eq]
    rw [if_neg (hn _ (by push_cast; norm_num)), if_neg (hn _ (by push_cast; norm_num)),
      if_neg (hn _ (by push_cast; norm_num)), if_neg (hn _ (by push_cast; norm_num)),
      if_neg (hn _ (by push_cast; norm_num)), if_neg (hn _ (by push_cast; norm_num))]
  refine ⟨⟨by norm_num, by norm_num⟩, hv, ?_⟩
  rw [hv]
  exact hn _ (by push_cast; norm_num)

/-! ### Concrete-site evaluations -/

lemma beam_get_6_2x6 : BEAM_SPANS_get ("2-" ++ "2x6") "6" = 11/2 := rfl

lemma beam_get_6_2x8 : BEAM_SPANS_get ("2-" ++ "2x8") "6" = 7 := rfl

lemma beam_get_10_2x6 : BEAM_SPANS_get ("2-" ++ "2x6") "10" = 4 := rfl

lemma beam_get_10_2x8 : BEAM_SPANS_get ("2-" ++ "2x8") "10" = 11/2 := rfl

lemma beam_get_10_2x10 : BEAM_SPANS_get ("2-" ++ "2x10") "10" = 7 := rfl

lemma beam_get_10_2x12 : BEAM_SPANS_get ("2-" ++ "2x12") "10" = 17/2 := rfl

lemma site1_guard : ¬ cantilever_ft site1 > site1.depth_ft * MAX_CANTILEVER_RATIO := by
  simp [cantilever_ft, site1, MAX_CANTILEVER_RATIO]

lemma site1_span : joist_span_ft site1 = 10 := by
  simp [joist_span_ft, cantilever_ft, site1, MAX_CANTILEVER_RATIO]
  norm_num

lemma site1_nposts : num_posts site1 = 3 := by
  norm_num [num_posts, target_beam_span, site1]

lemma site1_abs : actual_beam_span site1 = 8 := by
  rw [actual_beam_span, site1_nposts]
  norm_num [site1]

lemma site1_joist : select_joist_size (joist_span_ft site1) 16 = .ok "2x8" := by
  rw [site1_span]
  norm_num [select_joist_size, joistSizeOrder, List.find?, JOIST_SPANS_get]

lemma site1_beam :
    select_beam_size (actual_beam_span site1) (joist_span_ft site1) = .ok ("2x12", 2) := by
  rw [site1_span, site1_abs]
  have hcat : get_joist_span_category 10 = "10" := by
    norm_num [get_joist_span_category]
  have hfind : List.find? (fun size => (8 : ℚ) ≤ BEAM_SPANS_get ("2-" ++ size) "10")
      joistSizeOrder = some "2x12" := by
    simp only [joistSizeOrder, List.find?, beam_get_10_2x6, beam_get_10_2x8,
      beam_get_10_2x10, beam_get_10_2x12]
    norm_num
  rw [select_beam_size_eq_find, hcat, hfind]

lemma site1_eq : generate_structure site1 = successStructure site1 "2x8" "2x12" 2 :=
  generate_structure_ok site1 "2x8" "2x12" 2 site1_guard site1_joist site1_beam

lemma site1_compliant : (generate_structure site1).compliant = true := by
  rw [site1_eq]
  rfl

lemma site1_beam_bottom : beam_bottom_z site1 "2x8" "2x12" = 11/8 := by
  norm_num [beam_bottom_z, joist_bottom_z, joist_top_z, decking_thickness_ft, site1,
    LUMBER_SPECS, LumberSpec.height_ft]

lemma site1_bys : beam_y_positions site1 = [10] := by
  simp [beam_y_positions, site1, cantilever_ft, MAX_CANTILEVER_RATIO]
  norm_num

lemma site1_beams_pos : ∀ b ∈ (generate_structure site1).beams, 0 < b.z_ft := by
  intro b hb
  rw [site1_eq, successStructure_beams, site1_bys] at hb
  simp only [List.map_cons, List.map_nil, List.mem_singleton] at hb
  subst hb
  show (0 : ℚ) < beam_bottom_z site1 "2x8" "2x12"
  rw [site1_beam_bottom]
  norm_num

lemma beam_y_positions_ne_nil (s : SiteInput) : beam_y_positions s ≠ [] := by
  unfold beam_y_positions
  split <;> simp

/-- C1 (amended): under positive dimensions, positive frost depth, and beam
bottoms above grade (the platform height exceeds decking + joist depth +
beam depth), every compliant structure's elevations satisfy
decking surface ≥ joist top > joist bottom = beam top > beam bottom =
post top > grade > footing bottom.  (As originally stated the claim fails:
a compliant 1-ft-high deck has post tops at grade, see the
counterexample.) -/
theorem C1_elevation_order (s : SiteInput)
    (hw : 0 < s.width_ft) (hd : 0 < s.depth_ft) (hh : 0 < s.height_ft)
    (hfrost : 0 < s.frost_depth_in)
    (hcomp : (generate_structure s).compliant = true)
    (hpost : ∀ b ∈ (generate_structure s).beams, 0 < b.z_ft) :
    ∀ j ∈ (generate_structure s).joists, ∀ b ∈ (generate_structure s).beams,
    ∀ p ∈ (generate_structure s).posts, ∀ f ∈ (generate_structure s).footings,
      s.height_ft ≥ j.z_ft + j.lumber.height_ft ∧
      j.z_ft + j.lumber.height_ft > j.z_ft ∧
      j.z_ft = b.z_ft + b.lumber.height_ft ∧
      b.z_ft + b.lumber.height_ft > b.z_ft ∧
      b.z_ft = p.height_ft ∧
      p.height_ft > 0 ∧
      (0 : ℚ) > -((f.depth_in : ℚ) / 12) := by
  obtain ⟨js, bs, ply, hg, hj, hb, heq⟩ := compliant_of_generate s hcomp
  have hjs := select_joist_size_ok_mem hj
  have hbs := select_beam_size_ok_mem hb
  have hjh := lumber_height_pos hjs
  have hbh := lumber_height_pos hbs
  have hbbz : 0 < beam_bottom_z s js bs := by
    obtain ⟨y0, hy0⟩ := List.exists_mem_of_ne_nil _ (beam_y_positions_ne_nil s)
    have hmem : (⟨-s.width_ft / 2, s.width_ft / 2, y0, beam_bottom_z s js bs,
        LUMBER_SPECS bs, ply⟩ : Beam) ∈ (generate_structure s).beams := by
      rw [heq, successStructure_beams]
      exact List.mem_map.mpr ⟨y0, hy0, rfl⟩
    exact hpost _ hmem
  rw [heq]
  intro j hjm b hbm q hqm f hfm
  rw [successStructure_joists] at hjm
  rw [successStructure_beams] at hbm
  rw [successStructure_posts] at hqm
  rw [successStructure_footings] at hfm
  simp only [List.mem_map, List.mem_flatMap] at hjm hbm hqm hfm
  obtain ⟨i, -, rfl⟩ := hjm
  obtain ⟨y, -, rfl⟩ := hbm
  obtain ⟨y2, hy2, i2, -, rfl⟩ := hqm
  obtain ⟨y3, hy3, i3, -, rfl⟩ := hfm
  refine ⟨?_, ?_, ?_, ?_, ?_, ?_, ?_⟩
  · show s.height_ft ≥ joist_bottom_z s js + (LUMBER_SPECS js).height_ft
    unfold joist_bottom_z joist_top_z decking_thickness_ft
    linarith
  · show joist_bottom_z s js + (LUMBER_SPECS js).height_ft > joist_bottom_z s js
    linarith
  · show joist_bottom_z s js = beam_bottom_z s js bs + (LUMBER_SPECS bs).height_ft
    unfold beam_bottom_z
    ring
  · show beam_bottom_z s js bs + (LUMBER_SPECS bs).height_ft > beam_bottom_z s js bs
    linarith
  · rfl
  · exact hbbz
  · show (0 : ℚ) > -((s.frost_depth_in : ℚ) / 12)
    have : (0 : ℚ) < (s.frost_depth_in : ℚ) := by exact_mod_cast hfrost
    linarith

/-- Witness for C1 at site1 (16 × 12 × 3 ft, ledger direct): all hypotheses
hold and the amended elevation chain follows. -/
theorem C1_elevation_order_witness :
    ((0 : ℚ) < site1.width_ft ∧ (0 : ℚ) < site1.depth_ft ∧
     (0 : ℚ) < site1.height_ft ∧ (0 : ℤ) < site1.frost_depth_in ∧
     (generate_structure site1).compliant = true ∧
     ∀ b ∈ (generate_structure site1).beams, 0 < b.z_ft) ∧
    (∀ j ∈ (generate_structure site1).joists, ∀ b ∈ (generate_structure site1).beams,
     ∀ p ∈ (generate_structure site1).posts, ∀ f ∈ (generate_structure site1).footings,
      site1.height_ft ≥ j.z_ft + j.lumber.height_ft ∧
      j.z_ft + j.lumber.height_ft > j.z_ft ∧
      j.z_ft = b.z_ft + b.lumber.height_ft ∧
      b.z_ft + b.lumber.height_ft > b.z_ft ∧
      b.z_ft = p.height_ft ∧
      p.height_ft > 0 ∧
      (0 : ℚ) > -((f.depth_in : ℚ) / 12)) :=
  ⟨⟨by norm_num [site1], by norm_num [site1], by norm_num [site1], by norm_num [site1],
    site1_compliant, site1_beams_pos⟩,
   C1_elevation_order site1 (by norm_num [site1]) (by norm_num [site1])
     (by norm_num [site1]) (by norm_num [site1]) site1_compliant site1_beams_pos⟩

lemma siteLow_guard : ¬ cantilever_ft siteLow > siteLow.depth_ft * MAX_CANTILEVER_RATIO := by
  simp [cantilever_ft, siteLow, MAX_CANTILEVER_RATIO]

lemma siteLow_span : joist_span_ft siteLow = 3 := by
  simp [joist_span_ft, cantilever_ft, siteLow, MAX_CANTILEVER_RATIO]
  norm_num

lemma siteLow_nposts : num_posts siteLow = 2 := by
  have h : (⌈(4 : ℚ) / 8⌉ : ℤ) = 1 := by
    rw [Int.ceil_eq_iff]
    norm_num
  unfold num_posts target_beam_span
  rw [show siteLow.width_ft = 4 from rfl, h]
  simp

lemma siteLow_abs : actual_beam_span siteLow = 4 := by
  rw [actual_beam_span, siteLow_nposts]
  norm_num [siteLow]

lemma siteLow_joist : select_joist_size (joist_span_ft siteLow) 16 = .ok "2x6" := by
  rw [siteLow_span]
  norm_num [select_joist_size, joistSizeOrder, List.find?, JOIST_SPANS_get]

lemma siteLow_beam :
    select_beam_size (actual_beam_span siteLow) (joist_span_ft siteLow) = .ok ("2x6", 2) := by
  rw [siteLow_span, siteLow_abs]
  have hcat : get_joist_span_category 3 = "6" := by
    norm_num [get_joist_span_category]
  have hfind : List.find? (fun size => (4 : ℚ) ≤ BEAM_SPANS_get ("2-" ++ size) "6")
      joistSizeOrder = some "2x6" := by
    simp only [joistSizeOrder, List.find?, beam_get_6_2x6]
    norm_num
  rw [select_beam_size_eq_find, hcat, hfind]

lemma siteLow_eq : generate_structure siteLow = successStructure siteLow "2x6" "2x6" 2 :=
  generate_structure_ok siteLow "2x6" "2x6" 2 siteLow_guard siteLow_joist siteLow_beam

lemma siteLow_beam_bottom : beam_bottom_z siteLow "2x6" "2x6" = 0 := by
  norm_num [beam_bottom_z, joist_bottom_z, joist_top_z, decking_thickness_ft, siteLow,
    LUMBER_SPECS, LumberSpec.height_ft]

lemma siteLow_bys : beam_y_positions siteLow = [3] := by
  simp [beam_y_positions, siteLow, cantilever_ft, MAX_CANTILEVER_RATIO]
  norm_num

lemma siteLow_posts_heights :
    (generate_structure siteLow).posts.map Post.height_ft = [0, 0] := by
  rw [siteLow_eq, successStructure_posts, siteLow_bys, siteLow_nposts]
  show ([(3 : ℚ)].flatMap fun beamY => (List.range (Int.toNat 2)).map fun (i : ℕ) =>
    (⟨-(siteLow.width_ft / 2) + (i : ℚ) * actual_beam_span siteLow, beamY,
      beam_bottom_z siteLow "2x6" "2x6",
      LUMBER_SPECS (select_post_size (beam_bottom_z siteLow "2x6" "2x6"))⟩ : Post)).map
      Post.height_ft = [0, 0]
  rw [show Int.toNat 2 = 2 from rfl, show List.range 2 = [0, 1] from rfl]
  simp only [List.flatMap_cons, List.flatMap_nil, List.map_cons, List.map_nil,
    List.append_nil]
  rw [siteLow_beam_bottom]

/-- Counterexample to C1 as stated: at width 4, depth 4, height 1 (ledger
direct) the structure is compliant, yet both posts have height 0, so
"beam bottom = post top > grade" fails. -/
theorem C1_elevation_order_counterexample :
    ((0 : ℚ) < siteLow.width_ft ∧ (0 : ℚ) < siteLow.depth_ft ∧
     (0 : ℚ) < siteLow.height_ft) ∧
    (generate_structure siteLow).compliant = true ∧
    ¬ (∀ p ∈ (generate_structure siteLow).posts, 0 < p.height_ft) := by
  refine ⟨⟨by norm_num [siteLow], by norm_num [siteLow], by norm_num [siteLow]⟩,
    by rw [siteLow_eq]; rfl, ?_⟩
  intro hall
  have hm := siteLow_posts_heights
  cases hp : (generate_structure siteLow).posts with
  | nil => rw [hp] at hm; simp at hm
  | cons a t =>
    rw [hp] at hm
    simp only [List.map_cons, List.cons.injEq] at hm
    have ha := hall a (by rw [hp]; exact List.mem_cons_self a t)
    rw [hm.1] at ha
    exact lt_irrefl 0 ha

lemma site3_guard : ¬ cantilever_ft site3 > site3.depth_ft * MAX_CANTILEVER_RATIO := by
  simp [cantilever_ft, site3, MAX_CANTILEVER_RATIO]

lemma site3_span : joist_span_ft site3 = 28 := by
  simp [joist_span_ft, cantilever_ft, site3, MAX_CANTILEVER_RATIO]
  norm_num

lemma site3_joist_err : select_joist_size (joist_span_ft site3) 16 =
    .error (.joistSpanExceeded 28 (39/2)) := by
  rw [site3_span]
  norm_num [select_joist_size, joistSizeOrder, List.find?, JOIST_SPANS_get]

/-- Witness for C5 at site3 (16 × 30 × 3): joist span 28 exceeds the table,
the error is recorded, compliance is false, and no geometry is produced. -/
theorem C5_span_errors_halt_witness :
    (generate_structure site3).errors = [.joistSpanExceeded 28 (39/2)] ∧
    (generate_structure site3).compliant = false ∧
    (generate_structure site3).footings = [] ∧
    (generate_structure site3).posts = [] ∧
    (generate_structure site3).beams = [] ∧
    (generate_structure site3).joists = [] ∧
    (generate_structure site3).ledger = none ∧
    (generate_structure site3).rim_joists = [] :=
  (C5_span_errors_halt site3).1 (.joistSpanExceeded 28 (39/2)) site3_guard site3_joist_err

lemma site2_guard : ¬ cantilever_ft site2 > site2.depth_ft * MAX_CANTILEVER_RATIO := by
  simp [cantilever_ft, site2, MAX_CANTILEVER_RATIO]

lemma site2_span : joist_span_ft site2 = 4 := by
  simp [joist_span_ft, site2]
  norm_num

lemma site2_nposts : num_posts site2 = 4 := by
  have h : (⌈(20 : ℚ) / 8⌉ : ℤ) = 3 := by
    rw [Int.ceil_eq_iff]
    norm_num
  unfold num_posts target_beam_span
  rw [show site2.width_ft = 20 from rfl, h]
  simp

lemma site2_abs : actual_beam_span site2 = 20/3 := by
  rw [actual_beam_span, site2_nposts]
  norm_num [site2]

lemma site2_joist : select_joist_size (joist_span_ft site2) 16 = .ok "2x6" := by
  rw [site2_span]
  norm_num [select_joist_size, joistSizeOrder, List.find?, JOIST_SPANS_get]

lemma site2_beam :
    select_beam_size (actual_beam_span site2) (joist_span_ft site2) = .ok ("2x8", 2) := by
  rw [site2_span, site2_abs]
  have hcat : get_joist_span_category 4 = "6" := by
    norm_num [get_joist_span_category]
  have hfind : List.find? (fun size => (20 : ℚ)/3 ≤ BEAM_SPANS_get ("2-" ++ size) "6")
      joistSizeOrder = some "2x8" := by
    simp only [joistSizeOrder, List.find?, beam_get_6_2x6, beam_get_6_2x8]
    norm_num
  rw [select_beam_size_eq_find, hcat, hfind]

lemma site2_eq : generate_structure site2 = successStructure site2 "2x6" "2x8" 2 :=
  generate_structure_ok site2 "2x6" "2x8" 2 site2_guard site2_joist site2_beam

lemma site2_compliant : (generate_structure site2).compliant = true := by
  rw [site2_eq]
  rfl

/-- Witness for C9 at site2 (20 × 8 × 3, freestanding): the structure is
compliant and the attachment-mode geometry facts follow. -/
theorem C9_attachment_geometry_witness :
    ((generate_structure site2).ledger.isSome ↔
      site2.ledger_attachment ≠ .freestanding) ∧
    (site2.ledger_attachment = .freestanding →
      cantilever_ft site2 = 0 ∧ joist_span_ft site2 = site2.depth_ft / 2 ∧
      (generate_structure site2).beams.map Beam.y_ft =
        [site2.depth_ft / 3, 2 * site2.depth_ft / 3] ∧
      (generate_structure site2).ledger = none) ∧
    (site2.ledger_attachment ≠ .freestanding →
      (generate_structure site2).beams.map Beam.y_ft =
        [site2.depth_ft - cantilever_ft site2] ∧
      ∃ l, (generate_structure site2).ledger = some l) :=
  C9_attachment_geometry site2 site2_compliant

lemma siteTall_guard : ¬ cantilever_ft siteTall > siteTall.depth_ft * MAX_CANTILEVER_RATIO := by
  simp [cantilever_ft, siteTall, MAX_CANTILEVER_RATIO]

lemma siteTall_span : joist_span_ft siteTall = 3 := by
  simp [joist_span_ft, cantilever_ft, siteTall, MAX_CANTILEVER_RATIO]
  norm_num

lemma siteTall_nposts : num_posts siteTall = 2 := by
  have h : (⌈(4 : ℚ) / 8⌉ : ℤ) = 1 := by
    rw [Int.ceil_eq_iff]
    norm_num
  unfold num_posts target_beam_span
  rw [show siteTall.width_ft = 4 from rfl, h]
  simp

lemma siteTall_abs : actual_beam_span siteTall = 4 := by
  rw [actual_beam_span, siteTall_nposts]
  norm_num [siteTall]

lemma siteTall_joist : select_joist_size (joist_span_ft siteTall) 16 = .ok "2x6" := by
  rw [siteTall_span]
  norm_num [select_joist_size, joistSizeOrder, List.find?, JOIST_SPANS_get]

lemma siteTall_beam :
    select_beam_size (actual_beam_span siteTall) (joist_span_ft siteTall) =
      .ok ("2x6", 2) := by
  rw [siteTall_span, siteTall_abs]
  have hcat : get_joist_span_category 3 = "6" := by
    norm_num [get_joist_span_category]
  have hfind : List.find? (fun size => (4 : ℚ) ≤ BEAM_SPANS_get ("2-" ++ size) "6")
      joistSizeOrder = some "2x6" := by
    simp only [joistSizeOrder, List.find?, beam_get_6_2x6]
    norm_num
  rw [select_beam_size_eq_find, hcat, hfind]

lemma siteTall_beam_bottom : beam_bottom_z siteTall "2x6" "2x6" = 24 := by
  norm_num [beam_bottom_z, joist_bottom_z, joist_top_z, decking_thickness_ft, siteTall,
    LUMBER_SPECS, LumberSpec.height_ft]

lemma select_post_size_24 : select_post_size 24 = "6x6" := by
  norm_num [select_post_size, postSizeOrder, List.find?, POST_HEIGHT_LIMITS]

lemma siteTall_over_limit : beam_bottom_z siteTall "2x6" "2x6" >
    POST_HEIGHT_LIMITS_get (select_post_size (beam_bottom_z siteTall "2x6" "2x6")) 8 := by
  rw [siteTall_beam_bottom, select_post_size_24]
  norm_num [POST_HEIGHT_LIMITS_get]

/-- Witness for C7 at siteTall (4 × 4 × 25): the post height 24 ft exceeds
every tabulated limit, yet the structure stays compliant with no errors and
carries the engineering-review note. -/
theorem C7_post_advisory_witness :
    (generate_structure siteTall).compliant = true ∧
    (generate_structure siteTall).errors = [] ∧
    Note.postsReview (select_post_size (beam_bottom_z siteTall "2x6" "2x6"))
      (beam_bottom_z siteTall "2x6" "2x6") ∈ (generate_structure siteTall).notes := by
  have m := C7_post_advisory.2 siteTall "2x6" "2x6" 2 siteTall_guard siteTall_joist
    siteTall_beam
  exact ⟨m.1, m.2.1, m.2.2.1 siteTall_over_limit⟩
